import Mathlib

set_option maxRecDepth 8000

/-! Shallow embedding of the `driverutils` package (installer.py, helper.py).
Python strings are modelled as Lean `String` (operating on `.data` char lists),
machine state (memoized attributes, file presence, executable bit) as an
explicit `DriverState` record, and the outside world (OS platform, subprocess
outputs, HTTP responses) as per-installer environment records.  Fallible
Python code (raised exceptions) is modelled with `Except Err`. -/

/-- Characters removed by Python `str.strip()` (whitespace set). -/
def isPySpace (c : Char) : Bool :=
  c == ' ' || c == '\t' || c == '\n' || c == '\r' || c == '\x0b' || c == '\x0c'

/-- Model of Python `str.strip()`: drop whitespace from both ends. -/
def pyStrip (s : String) : String :=
  String.mk (((s.data.dropWhile isPySpace).reverse.dropWhile isPySpace).reverse)

/-- Fuelled worker for Python `str.replace(old, new)` (all non-overlapping
occurrences, scanning left to right).  The fuel is at least the length of the
scanned list, and `old` is nonempty at every call site, so the fuel never runs
out. -/
def replaceFuel (old new : List Char) : List Char → Nat → List Char
  | cs, 0 => cs
  | cs, Nat.succ fuel =>
    if old.isPrefixOf cs then new ++ replaceFuel old new (cs.drop old.length) fuel
    else
      match cs with
      | [] => []
      | c :: t => c :: replaceFuel old new t fuel

/-- Model of Python `s.replace(old, new)` for nonempty `old`. -/
def pyReplace (old new s : String) : String :=
  String.mk (replaceFuel old.data new.data s.data (s.data.length + 1))

/-- Model of Python `s.split(sep)` for a one-character separator: keeps empty
segments and always returns at least one segment. -/
def splitChar (sep : Char) : List Char → List (List Char)
  | [] => [[]]
  | c :: cs =>
    if c == sep then [] :: splitChar sep cs
    else
      match splitChar sep cs with
      | [] => [[c]]
      | g :: gs => (c :: g) :: gs

/-- Fuelled worker for Python `str.split()` with no argument: split on
whitespace runs, discarding empty pieces. -/
def wordsFuel : List Char → Nat → List (List Char)
  | _, 0 => []
  | [], _ => []
  | c :: t, Nat.succ fuel =>
    if isPySpace c then wordsFuel t fuel
    else (c :: t.takeWhile (fun x => !isPySpace x)) ::
      wordsFuel (t.dropWhile (fun x => !isPySpace x)) fuel

/-- Model of Python `s.split()` (whitespace splitting, no empties). -/
def pyWords (s : String) : List (List Char) :=
  wordsFuel s.data (s.data.length + 1)

/-- First index at which `needle` occurs in the haystack, if any
(the index Python `str.find` reports when non-negative). -/
def firstIdxOf (needle : List Char) : List Char → Option Nat
  | [] => if needle.isPrefixOf ([] : List Char) then some 0 else none
  | c :: t =>
    if needle.isPrefixOf (c :: t) then some 0
    else (firstIdxOf needle t).map (fun i => i + 1)

/-- Model of Python `needle in hay` on strings (substring containment). -/
def pyInStr (needle hay : String) : Bool :=
  (firstIdxOf needle.data hay.data).isSome

/-- Model of Python `hay.find(needle)`: first index, or -1. -/
def pyFindSub (needle hay : String) : Int :=
  match firstIdxOf needle.data hay.data with
  | some i => Int.ofNat i
  | none => -1

/-- Model of Python `s.endswith(suffix)`. -/
def pyEndsWith (sfx s : String) : Bool :=
  sfx.data.isSuffixOf s.data

/-- Model of Python slicing `s[:-2]` (drop the last two characters; shorter
strings collapse to the empty string). -/
def pySliceDropLast2 (s : String) : String :=
  String.mk (s.data.take (s.data.length - 2))

/-- Whether a string starts with the given character. -/
def strStartsWithChar (c : Char) (s : String) : Bool :=
  match s.data with
  | [] => false
  | a :: _ => a == c

/-- Whether a string ends with the given character. -/
def strEndsWithChar (c : Char) (s : String) : Bool :=
  match s.data.getLast? with
  | none => false
  | some a => a == c

/-- Model of Python `os.path.join(a, b)` for two components without drive
letters: posixpath semantics with `/`, and the same shape with a backslash
for ntpath (drive-letter handling is irrelevant to the joined inputs in
this repository). -/
def pyPathJoin (isWin : Bool) (a b : String) : String :=
  let sepC : Char := if isWin then '\\' else '/'
  let sepS : String := if isWin then "\\" else "/"
  if strStartsWithChar sepC b then b
  else if a == "" || strEndsWithChar sepC a then a ++ b
  else a ++ sepS ++ b

/-- Errors raised by the embedded code (Python exception kinds). -/
inductive Err where
  | unsupportedPlatform
  | processError
  | indexError
  | typeError
  | browserCheck
  | notFoundMatchDriver
  | httpError
  | archiveMissing
  | noReleaseTag
  | noDriverVersion
deriving DecidableEq

/-- Abstraction of `sys.platform` as tested by the source (`startswith('linux')`,
`== 'darwin'`, `startswith('win')`, anything else). -/
inductive SysPlatform where
  | linux
  | darwin
  | win
  | other
deriving DecidableEq

/-- ChromeInstaller.get_platform_architecture (installer.py lines 73-86):
`maxsizeBig` models `sys.maxsize > 2 ** 32`. -/
def chromeGetPlatformArchitecture (p : SysPlatform) (maxsizeBig : Bool) :
    Except Err (String × String) :=
  if p == .linux && maxsizeBig then .ok ("linux", "64")
  else if p == .darwin then .ok ("mac", "64")
  else if p == .win then .ok ("win", "32")
  else .error .unsupportedPlatform

/-- FireFoxInstaller.get_platform_architecture (installer.py lines 268-285):
`machine` models `platform.machine()` on Windows. -/
def ffGetPlatformArchitecture (p : SysPlatform) (maxsizeBig : Bool)
    (machine : String) : Except Err (String × String) :=
  if p == .linux && maxsizeBig then .ok ("linux", "64")
  else if p == .darwin then .ok ("mac", "os")
  else if p == .win then .ok ("win", if pyEndsWith "64" machine then "64" else "32")
  else .error .unsupportedPlatform

/-- IeInstaller.get_platform_architecture (installer.py lines 165-167) is a
bare `pass` body: on every platform it returns Python `None` and never
raises, modelled as the constant `none`. -/
def ieGetPlatformArchitecture : Option (String × String) := none

/-- ChromeInstaller.binary_name (installer.py line 90).  The Python
conditional expression binds the whole concatenation:
`('chromedriver' + '.exe') if windows else ''`. -/
def chromeBinaryName (isWin : Bool) : String :=
  if isWin then "chromedriver" ++ ".exe" else ""

/-- FireFoxInstaller.binary_name (installer.py line 207), same precedence. -/
def ffBinaryName (isWin : Bool) : String :=
  if isWin then "geckodriver" ++ ".exe" else ""

/-- IeInstaller.binary_name (installer.py line 171). -/
def ieBinaryName : String := "IEDriverServer.exe"

/-- IeInstaller.require_version (installer.py line 175): a fixed constant. -/
def ieRequireVersion : String := "3.150.1"

/-- InstallInterface.binary_path (installer.py line 35) specialised to a
given platform and driver directory. -/
def binaryPathAt (isWin : Bool) (driverDir bname : String) : String :=
  pyPathJoin isWin driverDir bname

/-- The PATH update performed by InstallInterface.install (installer.py
lines 22-25), translated with Python conditional-expression precedence:
`driver_dir + ";" if windows else ":" + old`. -/
def installPathUpdate (isWin : Bool) (envPath : Option String)
    (driverDir : String) : String :=
  match envPath with
  | none => driverDir
  | some p =>
    if pyInStr driverDir p then p
    else if isWin then driverDir ++ ";" else ":" ++ p

/-- ChromeInstaller.has_require_version (installer.py lines 132-133) as a
pure function of the two (cached) version strings. -/
def chromeHasRequireVersion (req cur : String) : Bool :=
  (splitChar '.' req.data).headD [] == (splitChar '.' cur.data).headD []

/-- FireFoxInstaller.has_require_version (installer.py lines 265-266) as a
pure function of the two (cached) version strings. -/
def ffHasRequireVersion (req cur : String) : Bool :=
  cur == req

/-- IeInstaller.has_require_version (installer.py lines 199-200) as a pure
function of the two version strings. -/
def ieHasRequireVersion (req cur : String) : Bool :=
  req == pySliceDropLast2 cur

/-- Wording of the spec: the leading numeric segment of a version string,
the part before the first dot. -/
def leadingSegment (s : String) : List Char :=
  s.data.takeWhile (fun c => c != '.')

/-- Wording of the spec: a version string with its last two characters
removed. -/
def dropLastTwo (s : String) : String :=
  String.mk s.data.dropLast.dropLast

/-- Values storable in a Firefox profile preference (helper.py uses strings,
booleans and small integers). -/
inductive PrefVal where
  | s (v : String)
  | b (v : Bool)
  | i (v : Int)
deriving DecidableEq

/-- FirefoxProfile.set_preference modelled on an association list: overwrite
an existing key in place, otherwise append. -/
def setPref (prefs : List (String × PrefVal)) (k : String) (v : PrefVal) :
    List (String × PrefVal) :=
  match prefs with
  | [] => [(k, v)]
  | (k0, v0) :: rest =>
    if k0 == k then (k, v) :: rest else (k0, v0) :: setPref rest k v

/-- Lookup of a profile preference. -/
def lookupPref (prefs : List (String × PrefVal)) (k : String) :
    Option PrefVal :=
  match prefs with
  | [] => none
  | (k0, v0) :: rest => if k0 == k then some v0 else lookupPref rest k

/-- Options bag built by IeOptions.init_options (helper.py lines 45-49). -/
structure IeOptionsModel where
  ignoreZoomLevel : Bool
  ignoreProtectedModeSettings : Bool
  initialBrowserUrl : Option String
deriving DecidableEq

/-- IeOptions.init_options (helper.py lines 45-49). -/
def ieInitOptions : IeOptionsModel :=
  { ignoreZoomLevel := true
    ignoreProtectedModeSettings := true
    initialBrowserUrl := none }

/-- Options bag built by ChromeOptions.init_options (helper.py lines 66-72);
the two experimental options are modelled as named fields. -/
structure ChromeOptionsModel where
  arguments : List String
  excludeSwitches : List String
  useAutomationExtension : Bool
deriving DecidableEq

/-- ChromeOptions.init_options (helper.py lines 66-72). -/
def chromeInitOptions : ChromeOptionsModel :=
  { arguments := ["--disable-blink-features=AutomationControlled"]
    excludeSwitches := ["enable-automation"]
    useAutomationExtension := false }

/-- Options bag built by FirefoxOptions.init_options (helper.py lines 85-92):
a profile holding preferences. -/
structure FirefoxOptionsModel where
  prefs : List (String × PrefVal)
deriving DecidableEq

/-- FirefoxOptions.init_options (helper.py lines 85-92). -/
def ffInitOptions : FirefoxOptionsModel :=
  { prefs := setPref (setPref [] "dom.webdriver.enabled" (.b false))
      "useAutomationExtension" (.b false) }

/-- IeOptions.set_user_agent (helper.py lines 51-53): prints a notice and
returns the receiver unchanged.  The second component collects the printed
user-facing notices. -/
def ieSetUserAgent (o : IeOptionsModel) (_ua : String) :
    IeOptionsModel × List String :=
  (o, ["IE는 User-Agent 변경 기능을 지원하지 않습니다."])

/-- IeOptions.set_start_url (helper.py lines 55-57). -/
def ieSetStartUrl (o : IeOptionsModel) (url : String) :
    IeOptionsModel × List String :=
  ({ o with initialBrowserUrl := some url }, [])

/-- ChromeOptions.set_user_agent (helper.py lines 74-76). -/
def chromeSetUserAgent (o : ChromeOptionsModel) (ua : String) :
    ChromeOptionsModel × List String :=
  ({ o with arguments := o.arguments ++ ["user-agent=" ++ ua] }, [])

/-- ChromeOptions.set_start_url (helper.py lines 78-80): prints a notice and
returns the receiver unchanged. -/
def chromeSetStartUrl (o : ChromeOptionsModel) (_url : String) :
    ChromeOptionsModel × List String :=
  (o, ["크롬은 시작페이지 설정을 지원하지 않습니다."])

/-- FirefoxOptions.set_user_agent (helper.py lines 94-96). -/
def ffSetUserAgent (o : FirefoxOptionsModel) (ua : String) :
    FirefoxOptionsModel × List String :=
  ({ o with prefs := setPref o.prefs "general.useragent.override" (.s ua) }, [])

/-- FirefoxOptions.set_start_url (helper.py lines 98-103), translated
literally: the homepage preference is set to the literal string
"https://google.com" rather than to the `url` argument. -/
def ffSetStartUrlPrefs (prefs : List (String × PrefVal)) (_url : String) :
    List (String × PrefVal) :=
  setPref
    (setPref
      (setPref prefs "browser.startup.homepage" (.s "https://google.com"))
      "browser.startup.blankWindow" (.b false))
    "browser.startup.page" (.i 1)

/-- FirefoxOptions.set_start_url lifted to the options bag. -/
def ffSetStartUrl (o : FirefoxOptionsModel) (url : String) :
    FirefoxOptionsModel × List String :=
  ({ o with prefs := ffSetStartUrlPrefs o.prefs url }, [])

/-- Mutable per-instance installer state: the two memoized version attributes
(`_require_version`, `_current_version`, absent unless set), whether the
driver binary file exists on disk, and whether it is executable. -/
structure DriverState where
  requireCache : Option String
  currentCache : Option String
  filePresent : Bool
  fileExecutable : Bool
deriving DecidableEq

/-- Environment oracle for ChromeInstaller: platform facts, whether the
browser-version subprocess can be spawned and what it prints, what the
downloaded driver prints for `-v`, the XML listing keys, and HTTP outcomes. -/
structure ChromeEnv where
  platform : SysPlatform
  maxsizeBig : Bool
  browserFound : Bool
  browserOut : String
  driverOut : String
  listing : List String
  fetchOk : Bool
  archiveHasBinary : Bool
  driverDir : String
deriving DecidableEq

/-- Environment oracle for FireFoxInstaller: platform facts, the resolved
URL of the releases/latest redirect, the driver's `--version` output, and
HTTP outcomes. -/
structure FirefoxEnv where
  platform : SysPlatform
  maxsizeBig : Bool
  machine : String
  redirectUrl : String
  driverOut : String
  fetchOk : Bool
  archiveHasBinary : Bool
  driverDir : String
deriving DecidableEq

/-- The binary path of a ChromeInstaller instance in environment `env`. -/
def chromeBinaryPathOf (env : ChromeEnv) : String :=
  binaryPathAt (env.platform == .win) env.driverDir
    (chromeBinaryName (env.platform == .win))

/-- The binary path of a FireFoxInstaller instance in environment `env`. -/
def ffBinaryPathOf (env : FirefoxEnv) : String :=
  binaryPathAt (env.platform == .win) env.driverDir
    (ffBinaryName (env.platform == .win))

/-- ChromeInstaller.require_version (installer.py lines 92-117): cache hit
returns the memoized value; otherwise the platform is resolved (may raise),
the browser subprocess is spawned (`browserFound = false` models the
FileNotFoundError from Popen), its output parsed per platform, and the
result is memoized only when nonempty.  On Windows an empty output makes
`split()[-1]` raise IndexError. -/
def chromeRequireVersion (env : ChromeEnv) (st : DriverState) :
    Except Err String × DriverState :=
  match st.requireCache with
  | some v => (.ok v, st)
  | none =>
    match chromeGetPlatformArchitecture env.platform env.maxsizeBig with
    | .error e => (.error e, st)
    | .ok (plat, _) =>
      if env.browserFound = false then (.error .processError, st)
      else
        match
          (if plat == "linux" then
            some (pyStrip (pyReplace "Google Chrome" ""
              (pyStrip (pyReplace "Chromium" "" env.browserOut))))
          else if plat == "mac" then
            some (pyStrip (pyReplace "Google Chrome" "" env.browserOut))
          else if plat == "win" then
            ((pyWords (pyStrip env.browserOut)).getLast?.map String.mk)
          else some "") with
        | none => (.error .indexError, st)
        | some version =>
          (.ok version,
            if version == "" then st
            else { st with requireCache := some version })

/-- The regex step of ChromeInstaller.current_version (installer.py line
140): `re.match(r'.*?([\d.]+).*?', out)[1]`.  The lazy `.*?` cannot cross a
newline, so the capture is the maximal run of digits and dots starting at
the first digit-or-dot character of the first line; when the first line has
no such character the match is `None` and subscripting raises TypeError. -/
def chromeParseCurrent (out : String) : Option String :=
  match (out.data.takeWhile (fun c => c != '\n')).dropWhile
      (fun c => !(c.isDigit || c == '.')) with
  | [] => none
  | rest => some (String.mk (rest.takeWhile (fun c => c.isDigit || c == '.')))

/-- ChromeInstaller.current_version (installer.py lines 135-145): cache hit
returns the memoized value; otherwise the driver binary is run (raising when
the file is absent), its output parsed, and the result memoized only when
nonempty. -/
def chromeCurrentVersion (env : ChromeEnv) (st : DriverState) :
    Except Err String × DriverState :=
  match st.currentCache with
  | some v => (.ok v, st)
  | none =>
    if st.filePresent = false then (.error .processError, st)
    else
      match chromeParseCurrent env.driverOut with
      | none => (.error .typeError, st)
      | some version =>
        (.ok version,
          if version == "" then st
          else { st with currentCache := some version })

/-- ChromeInstaller.has_require_version as executed on an instance:
require_version first, then current_version, then the major-segment
comparison. -/
def chromeHasRequireVersionM (env : ChromeEnv) (st : DriverState) :
    Except Err Bool × DriverState :=
  match chromeRequireVersion env st with
  | (.error e, st1) => (.error e, st1)
  | (.ok req, st1) =>
    match chromeCurrentVersion env st1 with
    | (.error e, st2) => (.error e, st2)
    | (.ok cur, st2) => (.ok (chromeHasRequireVersion req cur), st2)

/-- Base URL of the chromedriver storage bucket (installer.py line 121). -/
def chromeBaseUrl : String := "https://chromedriver.storage.googleapis.com/"

/-- The listing scan of ChromeInstaller.get_download_url (installer.py lines
126-130): the first Key whose text has the major version followed by a dot
at index 0 resolves the URL; a fully traversed listing raises. -/
def chromeScanKeys (major p a : String) : List String → Except Err String
  | [] => .error .notFoundMatchDriver
  | k :: ks =>
    if pyFindSub (major ++ ".") k = 0 then
      .ok (chromeBaseUrl ++ String.mk ((splitChar '/' k.data).headD []) ++
        "/chromedriver_" ++ p ++ a ++ ".zip")
    else chromeScanKeys major p a ks

/-- ChromeInstaller.get_download_url as a function of the listing keys, the
required version and the platform pair (installer.py lines 119-130). -/
def chromeResolveUrl (keys : List String) (req p a : String) :
    Except Err String :=
  chromeScanKeys (String.mk ((splitChar '.' req.data).headD [])) p a keys

/-- Wording of the spec for the same scan: first listing entry prefixed by
the leading numeric segment of the required version followed by a dot. -/
def chromeResolveUrlSpec (keys : List String) (req p a : String) :
    Except Err String :=
  match keys.find?
      (fun k => (leadingSegment req ++ ['.']).isPrefixOf k.data) with
  | some k => .ok (chromeBaseUrl ++
      String.mk (k.data.takeWhile (fun c => c != '/')) ++
      "/chromedriver_" ++ p ++ a ++ ".zip")
  | none => .error .notFoundMatchDriver

/-- ChromeInstaller.get_download_url as executed on an instance: platform
resolution, then require_version, then the listing fetch (`urlopen`,
reported in the third component as performed network activity) and scan. -/
def chromeGetDownloadUrlEff (env : ChromeEnv) (st : DriverState) :
    Except Err String × DriverState × Bool :=
  match chromeGetPlatformArchitecture env.platform env.maxsizeBig with
  | .error e => (.error e, st, false)
  | .ok (plat, arch) =>
    match chromeRequireVersion env st with
    | (.error e, st1) => (.error e, st1, false)
    | (.ok req, st1) => (chromeResolveUrl env.listing req plat arch, st1, true)

/-- The fetch-and-extract branch of ChromeInstaller.download (installer.py
lines 151-157) followed by the chmod step: resolve the URL, download the
archive (non-200 raises URLError), extract the named binary (a missing
entry raises), mark the file present, then ensure the execute bit. -/
def chromeFetch (env : ChromeEnv) (st : DriverState) :
    Except Err String × DriverState × Bool :=
  match chromeGetDownloadUrlEff env st with
  | (.error e, st1, n) => (.error e, st1, n)
  | (.ok _, st1, n) =>
    if env.fetchOk = false then (.error .httpError, st1, n)
    else if env.archiveHasBinary = false then (.error .archiveMissing, st1, n)
    else (.ok (chromeBinaryPathOf env),
      { st1 with filePresent := true, fileExecutable := true }, n)

/-- ChromeInstaller.download (installer.py lines 147-160).  The third
component records whether any network fetch (`urlopen`) was performed. -/
def chromeDownload (env : ChromeEnv) (st : DriverState) :
    Except Err String × DriverState × Bool :=
  match chromeRequireVersion env st with
  | (.error e, st1) => (.error e, st1, false)
  | (.ok req, st1) =>
    if req == "" then (.error .browserCheck, st1, false)
    else if st1.filePresent = false then chromeFetch env st1
    else
      match chromeHasRequireVersionM env st1 with
      | (.error e, st2) => (.error e, st2, false)
      | (.ok b, st2) =>
        if b then
          (.ok (chromeBinaryPathOf env), { st2 with fileExecutable := true },
            false)
        else chromeFetch env st2

/-- FireFoxInstaller.require_version (installer.py lines 209-219): cache hit
returns the memoized value with no network activity; otherwise the
releases/latest redirect is followed (network activity `true`), a URL
without `/tag/` raises, and the last path segment is memoized
unconditionally. -/
def ffRequireVersion (env : FirefoxEnv) (st : DriverState) :
    Except Err String × DriverState × Bool :=
  match st.requireCache with
  | some v => (.ok v, st, false)
  | none =>
    if pyInStr "/tag/" env.redirectUrl = false then
      (.error .noReleaseTag, st, true)
    else
      let tag := String.mk ((splitChar '/' env.redirectUrl.data).getLastD [])
      (.ok tag, { st with requireCache := some tag }, true)

/-- Deterministic match of the regex fragment `\d+\.\d+\.\d+` at the head of
a character list, returning the matched characters.  Each `\d+` is a maximal
digit run (a shorter run would be followed by a digit, not a dot, so
backtracking inside a run can never succeed). -/
def matchDotted (cs : List Char) : Option (List Char) :=
  match cs.dropWhile Char.isDigit with
  | '.' :: r1 =>
    if cs.takeWhile Char.isDigit == [] then none
    else
      match r1.dropWhile Char.isDigit with
      | '.' :: r2 =>
        if r1.takeWhile Char.isDigit == [] then none
        else if r2.takeWhile Char.isDigit == [] then none
        else some (cs.takeWhile Char.isDigit ++ '.' ::
          (r1.takeWhile Char.isDigit ++ '.' :: r2.takeWhile Char.isDigit))
      | _ => none
  | _ => none

/-- Greedy-`.*` search: the latest position (before any newline) at which
`\d+\.\d+\.\d+` matches, as preferred by the greedy `.*` in
`gecko.*(\d+\.\d+\.\d+)`. -/
def lastDotted : List Char → Option (List Char)
  | [] => none
  | c :: rest =>
    if c == '\n' then none
    else
      match lastDotted rest with
      | some v => some v
      | none => matchDotted (c :: rest)

/-- The five characters of the literal `gecko`. -/
def geckoChars : List Char := ['g', 'e', 'c', 'k', 'o']

/-- First (leftmost) overall match of `gecko.*(\d+\.\d+\.\d+)`: scan for an
occurrence of `gecko` whose line still contains a dotted version after it,
returning the captured group of the first such occurrence (installer.py
line 226, `re.findall(...)[0]`). -/
def findGeckoVer : List Char → Option (List Char)
  | [] => none
  | c :: rest =>
    match (if geckoChars.isPrefixOf (c :: rest) then
        lastDotted ((c :: rest).drop 5) else none) with
    | some v => some v
    | none => findGeckoVer rest

/-- FireFoxInstaller.current_version (installer.py lines 221-233): cache hit
returns the memoized value; otherwise the driver binary is run (raising
when the file is absent), the gecko version pattern extracted (no match
raises), and `"v" + capture` memoized when the capture is nonempty. -/
def ffCurrentVersion (env : FirefoxEnv) (st : DriverState) :
    Except Err String × DriverState :=
  match st.currentCache with
  | some v => (.ok v, st)
  | none =>
    if st.filePresent = false then (.error .processError, st)
    else
      match findGeckoVer env.driverOut.data with
      | none => (.error .noDriverVersion, st)
      | some v =>
        (.ok (String.mk ('v' :: v)),
          if v == [] then st
          else { st with currentCache := some (String.mk ('v' :: v)) })

/-- FireFoxInstaller.has_require_version as executed on an instance
(installer.py line 266): current_version is evaluated first, then
require_version (which may perform the network redirect lookup, reported in
the third component). -/
def ffHasRequireVersionM (env : FirefoxEnv) (st : DriverState) :
    Except Err Bool × DriverState × Bool :=
  match ffCurrentVersion env st with
  | (.error e, st1) => (.error e, st1, false)
  | (.ok cur, st1) =>
    match ffRequireVersion env st1 with
    | (.error e, st2, n) => (.error e, st2, n)
    | (.ok req, st2, n) => (.ok (ffHasRequireVersion req cur), st2, n)

/-- FireFoxInstaller.get_download_url as executed on an instance
(installer.py lines 235-245). -/
def ffGetDownloadUrlEff (env : FirefoxEnv) (st : DriverState) :
    Except Err String × DriverState × Bool :=
  match ffGetPlatformArchitecture env.platform env.maxsizeBig env.machine with
  | .error e => (.error e, st, false)
  | .ok (plat, arch) =>
    match ffRequireVersion env st with
    | (.error e, st1, n) => (.error e, st1, n)
    | (.ok req, st1, n) =>
      (.ok ("https://github.com/mozilla/geckodriver/releases/download/" ++
        req ++ "/geckodriver-" ++ req ++ "-" ++ plat ++ arch ++ "." ++
        (if plat == "win" then "zip" else "tar.gz")), st1, n)

/-- The fetch-and-extract branch of FireFoxInstaller.download (installer.py
lines 249-260) plus the chmod step.  `nPrev` carries network activity
already performed by the caller before entering the branch. -/
def ffFetchAfter (env : FirefoxEnv) (st : DriverState) (nPrev : Bool) :
    Except Err String × DriverState × Bool :=
  match ffGetDownloadUrlEff env st with
  | (.error e, st1, n) => (.error e, st1, nPrev || n)
  | (.ok _, st1, _) =>
    if env.fetchOk = false then (.error .httpError, st1, true)
    else if env.archiveHasBinary = false then (.error .archiveMissing, st1, true)
    else (.ok (ffBinaryPathOf env),
      { st1 with filePresent := true, fileExecutable := true }, true)

/-- FireFoxInstaller.download (installer.py lines 247-263).  The third
component records whether any network fetch (`urlopen`) was performed. -/
def ffDownload (env : FirefoxEnv) (st : DriverState) :
    Except Err String × DriverState × Bool :=
  if st.filePresent = false then ffFetchAfter env st false
  else
    match ffHasRequireVersionM env st with
    | (.error e, st1, n) => (.error e, st1, n)
    | (.ok b, st1, n) =>
      if b then
        (.ok (ffBinaryPathOf env), { st1 with fileExecutable := true }, n)
      else ffFetchAfter env st1 n

/-- IeInstaller.get_download_url (installer.py lines 182-185). -/
def ieGetDownloadUrl : String :=
  "https://selenium-release.storage.googleapis.com/" ++
  pySliceDropLast2 ieRequireVersion ++ "/IEDriverServer_Win32_" ++
  ieRequireVersion ++ ".zip"

/-- A fresh installer instance state: no memoized versions, no binary on
disk. -/
def freshState : DriverState :=
  { requireCache := none, currentCache := none, filePresent := false
    fileExecutable := false }

/-- Concrete Chrome environment used by witnesses: 64-bit Linux with an
installed Chromium 114 and a matching listing entry. -/
def chromeEnvW : ChromeEnv :=
  { platform := .linux, maxsizeBig := true, browserFound := true
    browserOut := "Chromium 114.0.5735.90", driverOut := "ChromeDriver 114.0.5735.90 (abcdef)"
    listing := ["114.0.5735.90/chromedriver_linux64.zip"], fetchOk := true
    archiveHasBinary := true, driverDir := "/d" }

/-- Concrete Chrome environment used by witnesses for detection failure:
the browser subprocess cannot be spawned. -/
def chromeEnvMissing : ChromeEnv :=
  { platform := .linux, maxsizeBig := true, browserFound := false
    browserOut := "", driverOut := "", listing := [], fetchOk := true
    archiveHasBinary := true, driverDir := "/d" }

/-- Concrete Firefox environment used by witnesses: 64-bit Linux, latest
release tag v0.33.0, driver reporting the same version. -/
def ffEnvW : FirefoxEnv :=
  { platform := .linux, maxsizeBig := true, machine := "x86_64"
    redirectUrl := "https://github.com/mozilla/geckodriver/releases/tag/v0.33.0"
    driverOut := "geckodriver 0.33.0 (abcdef)", fetchOk := true
    archiveHasBinary := true, driverDir := "/d" }

/-- An instance state with the binary on disk but no memoized versions. -/
def fileReadyState : DriverState :=
  { requireCache := none, currentCache := none, filePresent := true
    fileExecutable := true }

/-- Shape of a captured gecko version: three nonempty digit runs joined by
dots. -/
def geckoVerShape (v : List Char) : Prop :=
  ∃ d1 d2 d3 : List Char, d1 ≠ [] ∧ d2 ≠ [] ∧ d3 ≠ [] ∧
    (∀ c ∈ d1, c.isDigit = true) ∧ (∀ c ∈ d2, c.isDigit = true) ∧
    (∀ c ∈ d3, c.isDigit = true) ∧ v = d1 ++ '.' :: (d2 ++ '.' :: d3)


/-- The split of a list by a separator is never the empty list of groups. -/
theorem splitChar_ne_nil (sep : Char) (cs : List Char) :
    splitChar sep cs ≠ [] := by
  cases cs with
  | nil => simp [splitChar]
  | cons c t =>
    by_cases h : c == sep
    · simp [splitChar, h]
    · simp only [splitChar, h, Bool.false_eq_true, if_false]
      cases hs : splitChar sep t <;> simp

/-- The first group of a separator split is the prefix before the first
separator occurrence. -/
theorem headD_splitChar (sep : Char) (cs : List Char) :
    (splitChar sep cs).headD [] = cs.takeWhile (fun x => x != sep) := by
  induction cs with
  | nil => rfl
  | cons c t ih =>
    by_cases h : c == sep
    · simp [splitChar, h, List.takeWhile_cons, bne]
    · rcases hs : splitChar sep t with _ | ⟨g, gs⟩
      · exact absurd hs (splitChar_ne_nil sep t)
      · have hb : (c != sep) = true := by simp [bne, h]
        rw [hs] at ih
        simp only [List.headD] at ih
        simp [splitChar, h, hs, List.takeWhile_cons, hb, ih]

/-- Dropping the last element twice is taking all but the last two. -/
theorem dropLast_dropLast_take (l : List Char) :
    l.dropLast.dropLast = l.take (l.length - 2) := by
  rw [List.dropLast_eq_take, List.dropLast_eq_take, List.length_take,
    List.take_take]
  congr 1
  omega

/-- The Python slice `[:-2]` agrees with removing the last two characters. -/
theorem pySliceDropLast2_eq (s : String) :
    pySliceDropLast2 s = dropLastTwo s := by
  unfold pySliceDropLast2 dropLastTwo
  exact congrArg String.mk (dropLast_dropLast_take s.data).symm

/-- C1: for every pair of cached required and current version strings,
has_require_version holds exactly per family rule — Chrome compares the
leading numeric segments, Firefox compares for exact equality, IE compares
require_version against current_version with its last two characters
removed. -/
theorem hasRequireVersion_family_rules (req cur : String) :
    (chromeHasRequireVersion req cur = true ↔
      leadingSegment req = leadingSegment cur)
    ∧ (ffHasRequireVersion req cur = true ↔ req = cur)
    ∧ (ieHasRequireVersion req cur = true ↔ req = dropLastTwo cur) := by
  refine ⟨?_, ?_, ?_⟩
  · unfold chromeHasRequireVersion leadingSegment
    rw [headD_splitChar, headD_splitChar, beq_iff_eq]
  · unfold ffHasRequireVersion
    rw [beq_iff_eq]
    exact eq_comm
  · unfold ieHasRequireVersion
    rw [beq_iff_eq, pySliceDropLast2_eq]

/-- Instantiation of the C1 theorem at concrete version strings. -/
theorem hasRequireVersion_family_rules_witness :
    (chromeHasRequireVersion "114.0.5735.90" "114.0.5735.110" = true ↔
      leadingSegment "114.0.5735.90" = leadingSegment "114.0.5735.110")
    ∧ (ieHasRequireVersion "3.150.1" "3.150.1.0" = true ↔
      "3.150.1" = dropLastTwo "3.150.1.0") :=
  ⟨(hasRequireVersion_family_rules "114.0.5735.90" "114.0.5735.110").1,
   (hasRequireVersion_family_rules "3.150.1" "3.150.1.0").2.2⟩

/-- C2: evaluated at concrete inputs, the PATH update of install() does not
behave as specified.  On a non-Windows platform with PATH "/usr/bin" and a
driver directory "/opt/drivers" (not a substring of PATH), the new PATH is
":/usr/bin" — the driver directory is absent; on Windows the new PATH is
"/opt/drivers;" — the previous entry "/usr/bin" is lost.  The Python
conditional expression binds the whole assignment, not just the
separator. -/
theorem installPathUpdate_loses_entries :
    installPathUpdate false (some "/usr/bin") "/opt/drivers" = ":/usr/bin"
    ∧ pyInStr "/opt/drivers" ":/usr/bin" = false
    ∧ installPathUpdate true (some "/usr/bin") "/opt/drivers" = "/opt/drivers;"
    ∧ pyInStr "/usr/bin" "/opt/drivers;" = false :=
  ⟨rfl, rfl, rfl, rfl⟩

/-- C3: evaluated at the concrete input url = "https://example.com",
FirefoxOptions.set_start_url sets the homepage preference to the literal
"https://google.com", not to the given url; the other two preferences are
set as claimed. -/
theorem ffSetStartUrl_ignores_url :
    lookupPref (ffSetStartUrlPrefs [] "https://example.com")
        "browser.startup.homepage" = some (.s "https://google.com")
    ∧ lookupPref (ffSetStartUrlPrefs [] "https://example.com")
        "browser.startup.blankWindow" = some (.b false)
    ∧ lookupPref (ffSetStartUrlPrefs [] "https://example.com")
        "browser.startup.page" = some (.i 1)
    ∧ PrefVal.s "https://google.com" ≠ PrefVal.s "https://example.com" :=
  ⟨rfl, rfl, rfl, by decide⟩

/-- C4 counterexample: FireFoxInstaller.get_platform_architecture on macOS
returns the pair ("mac", "os"), not a 64-bit pair, and
IeInstaller.get_platform_architecture returns None on every platform
instead of raising on unsupported ones. -/
theorem getPlatformArchitecture_claim_false :
    ffGetPlatformArchitecture .darwin true "x86_64" = .ok ("mac", "os")
    ∧ (("mac", "os") : String × String) ≠ ("mac", "64")
    ∧ ieGetPlatformArchitecture = none :=
  ⟨rfl, by decide, rfl⟩

/-- C4 amended: Chrome and Firefox platform detection are pure functions of
the platform, pointer width and (Firefox/Windows) machine type, returning
exactly the tabulated pairs and failing on any other platform; the IE
variant is a stub that returns None everywhere and never raises. -/
theorem getPlatformArchitecture_pairs :
    (chromeGetPlatformArchitecture .linux true = .ok ("linux", "64"))
    ∧ (chromeGetPlatformArchitecture .linux false = .error .unsupportedPlatform)
    ∧ (∀ b, chromeGetPlatformArchitecture .darwin b = .ok ("mac", "64"))
    ∧ (∀ b, chromeGetPlatformArchitecture .win b = .ok ("win", "32"))
    ∧ (∀ b, chromeGetPlatformArchitecture .other b = .error .unsupportedPlatform)
    ∧ (∀ m, ffGetPlatformArchitecture .linux true m = .ok ("linux", "64"))
    ∧ (∀ m, ffGetPlatformArchitecture .linux false m = .error .unsupportedPlatform)
    ∧ (∀ b m, ffGetPlatformArchitecture .darwin b m = .ok ("mac", "os"))
    ∧ (∀ b m, ffGetPlatformArchitecture .win b m =
        .ok ("win", if pyEndsWith "64" m then "64" else "32"))
    ∧ (∀ b m, ffGetPlatformArchitecture .other b m = .error .unsupportedPlatform)
    ∧ ieGetPlatformArchitecture = none :=
  ⟨rfl, rfl, fun _ => rfl, fun _ => rfl, fun _ => rfl, fun _ => rfl,
   fun _ => rfl, fun _ _ => rfl, fun _ _ => rfl, fun _ _ => rfl, rfl⟩

/-- Data of an appended string is the appended data. -/
theorem strDataAppend (a b : String) : (a ++ b).data = a.data ++ b.data := by
  cases a
  cases b
  rfl

/-- Appending the empty string is the identity. -/
theorem strAppendEmpty (s : String) : s ++ "" = s := by
  cases s with
  | mk d =>
    show String.mk (d ++ []) = String.mk d
    rw [List.append_nil]

/-- A search returns index zero exactly when the needle is a prefix. -/
theorem firstIdxOf_eq_zero (nd hay : List Char) :
    firstIdxOf nd hay = some 0 ↔ nd.isPrefixOf hay = true := by
  cases hay with
  | nil =>
    simp only [firstIdxOf]
    split <;> simp_all
  | cons c t =>
    simp only [firstIdxOf]
    split
    · simp_all
    · rename_i hnp
      constructor
      · intro h
        rcases Option.map_eq_some'.mp h with ⟨i, _, hi⟩
        omega
      · intro h
        exact absurd h hnp

/-- Python `find(...) == 0` is the prefix test. -/
theorem pyFindSub_eq_zero (n h : String) :
    pyFindSub n h = 0 ↔ n.data.isPrefixOf h.data = true := by
  rw [← firstIdxOf_eq_zero]
  unfold pyFindSub
  rcases hfi : firstIdxOf n.data h.data with _ | i
  · constructor
    · intro hx
      exact absurd hx (by decide)
    · intro hx
      cases hx
  · show Int.ofNat i = 0 ↔ some i = some 0
    constructor
    · intro hx
      have hx0 : Int.ofNat i = Int.ofNat 0 := hx
      have h0 : i = 0 := Int.ofNat.inj hx0
      rw [h0]
    · intro hx
      injection hx with h0
      rw [h0]
      rfl

/-- The condition tested by the chrome listing scan agrees with the
spec-side prefix predicate. -/
theorem chromeScanCond (req k : String) :
    (pyFindSub (String.mk ((splitChar '.' req.data).headD []) ++ ".") k = 0) ↔
    ((leadingSegment req ++ ['.']).isPrefixOf k.data = true) := by
  rw [pyFindSub_eq_zero]
  have hdata : (String.mk ((splitChar '.' req.data).headD []) ++ ".").data =
      leadingSegment req ++ ['.'] := by
    rw [strDataAppend]
    show (splitChar '.' req.data).headD [] ++ ['.'] = _
    rw [headD_splitChar]
    rfl
  rw [hdata]

/-- The code-level chrome URL resolution coincides with the spec-side
first-matching-key description. -/
theorem chromeResolveUrl_eq_spec (keys : List String) (req p a : String) :
    chromeResolveUrl keys req p a = chromeResolveUrlSpec keys req p a := by
  unfold chromeResolveUrl chromeResolveUrlSpec
  induction keys with
  | nil => rfl
  | cons k ks ih =>
    by_cases hk : (leadingSegment req ++ ['.']).isPrefixOf k.data = true
    · have hfind : List.find?
          (fun s => (leadingSegment req ++ ['.']).isPrefixOf s.data)
          (k :: ks) = some k := by
        simp [List.find?_cons, hk]
      simp only [chromeScanKeys]
      rw [if_pos ((chromeScanCond req k).mpr hk), hfind, headD_splitChar]
    · have hkf : ((leadingSegment req ++ ['.']).isPrefixOf k.data) = false := by
        cases hb : (leadingSegment req ++ ['.']).isPrefixOf k.data with
        | false => rfl
        | true => exact absurd hb hk
      have hfind : List.find?
          (fun s => (leadingSegment req ++ ['.']).isPrefixOf s.data)
          (k :: ks) = List.find?
          (fun s => (leadingSegment req ++ ['.']).isPrefixOf s.data) ks := by
        simp [List.find?_cons, hkf]
      have hneg : ¬ (pyFindSub (String.mk ((splitChar '.' req.data).headD [])
          ++ ".") k = 0) := fun hc => hk ((chromeScanCond req k).mp hc)
      simp only [chromeScanKeys]
      rw [if_neg hneg, hfind]
      exact ih

/-- C6: ChromeInstaller.get_download_url resolves the first listing key
prefixed by the required major version followed by a dot (failing when no
key matches), and at the concrete required version "114.0.5735.90" with a
listing entry "114.0.5735.90/chromedriver_linux64.zip" the resolved URL is
exactly the base URL extended with that path. -/
theorem chromeGetDownloadUrl_firstMatch :
    (chromeResolveUrl ["114.0.5735.90/chromedriver_linux64.zip"]
      "114.0.5735.90" "linux" "64" =
      .ok "https://chromedriver.storage.googleapis.com/114.0.5735.90/chromedriver_linux64.zip")
    ∧ (∀ keys req p a,
      chromeResolveUrl keys req p a = chromeResolveUrlSpec keys req p a) :=
  ⟨rfl, chromeResolveUrl_eq_spec⟩

/-- C8: every options setter is a total function; the unsupported operations
(IE set_user_agent; Chrome set_start_url) return the receiver options state
unchanged together with exactly one user-facing notice, while the supported
setters emit no notice. -/
theorem optionSetters_noop_on_unsupported :
    (∀ (o : IeOptionsModel) (ua : String),
      ieSetUserAgent o ua = (o, ["IE는 User-Agent 변경 기능을 지원하지 않습니다."]))
    ∧ (∀ (o : ChromeOptionsModel) (url : String),
      chromeSetStartUrl o url = (o, ["크롬은 시작페이지 설정을 지원하지 않습니다."]))
    ∧ (∀ (o : IeOptionsModel) (url : String), (ieSetStartUrl o url).2 = [])
    ∧ (∀ (o : ChromeOptionsModel) (ua : String), (chromeSetUserAgent o ua).2 = [])
    ∧ (∀ (o : FirefoxOptionsModel) (ua : String), (ffSetUserAgent o ua).2 = [])
    ∧ (∀ (o : FirefoxOptionsModel) (url : String), (ffSetStartUrl o url).2 = []) :=
  ⟨fun _ _ => rfl, fun _ _ => rfl, fun _ _ => rfl, fun _ _ => rfl,
   fun _ _ => rfl, fun _ _ => rfl⟩

/-- C9 counterexample: on a non-Windows platform with driver directory
"/repo/driverutils", binary_path evaluates to "/repo/driverutils/" (a
trailing separator is appended by os.path.join with the empty binary name),
which is not equal to the driver directory path "/repo/driverutils"
itself. -/
theorem binaryPath_trailing_sep :
    chromeBinaryName false = ""
    ∧ binaryPathAt false "/repo/driverutils" (chromeBinaryName false) =
      "/repo/driverutils/"
    ∧ "/repo/driverutils/" ≠ "/repo/driverutils" :=
  ⟨rfl, rfl, by decide⟩

/-- C9 amended: on non-Windows platforms both binary names are the empty
string (the conditional expression governs the whole concatenation), so
binary_path is the driver directory followed by a trailing separator — not
a file named chromedriver or geckodriver inside it; the named .exe file
names are produced only on Windows. -/
theorem binaryName_empty_nonWindows :
    (chromeBinaryName false = "" ∧ ffBinaryName false = ""
      ∧ chromeBinaryName true = "chromedriver.exe"
      ∧ ffBinaryName true = "geckodriver.exe")
    ∧ (∀ dir : String, (dir == "") = false → strEndsWithChar '/' dir = false →
      binaryPathAt false dir (chromeBinaryName false) = dir ++ "/"
      ∧ binaryPathAt false dir (ffBinaryName false) = dir ++ "/") := by
  refine ⟨⟨rfl, rfl, rfl, rfl⟩, ?_⟩
  intro dir h1 h2
  constructor <;>
    simp [binaryPathAt, pyPathJoin, chromeBinaryName, ffBinaryName,
      strStartsWithChar, h1, h2, strAppendEmpty]

/-- Instantiation of the C9 amended theorem at a concrete directory. -/
theorem binaryName_empty_nonWindows_witness :
    binaryPathAt false "/repo" (chromeBinaryName false) = "/repo/"
    ∧ binaryPathAt false "/repo" (ffBinaryName false) = "/repo/" :=
  binaryName_empty_nonWindows.2 "/repo" rfl rfl

/-- A successful dotted-version match is three nonempty digit runs joined
by dots. -/
theorem matchDotted_shape (cs v : List Char)
    (h : matchDotted cs = some v) : geckoVerShape v := by
  unfold matchDotted at h
  split at h
  · split at h
    · cases h
    · split at h
      · split at h
        · cases h
        · split at h
          · cases h
          · injection h with hv
            subst hv
            refine ⟨_, _, _, ?_, ?_, ?_, ?_, ?_, ?_, rfl⟩
            · intro hnil
              simp_all
            · intro hnil
              simp_all
            · intro hnil
              simp_all
            · intro c hc
              exact List.mem_takeWhile_imp hc
            · intro c hc
              exact List.mem_takeWhile_imp hc
            · intro c hc
              exact List.mem_takeWhile_imp hc
      · cases h
  · cases h

/-- The greedy search only returns dotted-version captures. -/
theorem lastDotted_shape (cs v : List Char)
    (h : lastDotted cs = some v) : geckoVerShape v := by
  induction cs with
  | nil => cases h
  | cons c rest ih =>
    unfold lastDotted at h
    split at h
    · cases h
    · split at h
      · rename_i w hw
        injection h with hv
        rw [hv] at hw
        exact ih hw
      · exact matchDotted_shape _ _ h

/-- The overall gecko-version capture is a dotted version. -/
theorem findGeckoVer_shape (cs v : List Char)
    (h : findGeckoVer cs = some v) : geckoVerShape v := by
  induction cs with
  | nil => cases h
  | cons c rest ih =>
    unfold findGeckoVer at h
    split at h
    · rename_i w hw
      injection h with hv
      subst hv
      split at hw
      · exact lastDotted_shape _ _ hw
      · cases hw
    · exact ih h

/-- C10: on a fresh instance with the binary present, whenever
FireFoxInstaller.current_version returns it returns the captured dotted
numeric version (three digit runs joined by dots) prefixed with the
character v — the exact shape of a release tag — and when no
`gecko...digits.digits.digits` pattern occurs in the driver output it
raises instead of returning. -/
theorem ffCurrentVersion_vPrefix (env : FirefoxEnv) (st : DriverState)
    (hc : st.currentCache = none) (hf : st.filePresent = true) :
    (∀ v, findGeckoVer env.driverOut.data = some v →
      (ffCurrentVersion env st).1 = .ok (String.mk ('v' :: v))
      ∧ geckoVerShape v)
    ∧ (findGeckoVer env.driverOut.data = none →
      (ffCurrentVersion env st).1 = .error .noDriverVersion) := by
  constructor
  · intro v hv
    refine ⟨?_, findGeckoVer_shape _ _ hv⟩
    simp [ffCurrentVersion, hc, hf, hv]
  · intro hv
    simp [ffCurrentVersion, hc, hf, hv]

/-- Instantiation of the C10 theorem on the concrete environment whose
driver prints "geckodriver 0.33.0 (abcdef)". -/
theorem ffCurrentVersion_vPrefix_witness :
    (ffCurrentVersion ffEnvW fileReadyState).1 = .ok "v0.33.0"
    ∧ geckoVerShape ['0', '.', '3', '3', '.', '0'] := by
  have h := (ffCurrentVersion_vPrefix ffEnvW fileReadyState rfl rfl).1
    ['0', '.', '3', '3', '.', '0'] rfl
  exact ⟨h.1, h.2⟩

/-- A Bool hypothesis that is not true is false. -/
theorem boolNotTrue {b : Bool} (h : ¬ b = true) : b = false := by
  cases b
  · rfl
  · exact absurd rfl h

/-- A memoized require_version is returned with the state unchanged. -/
theorem chromeRequireVersion_cached (env : ChromeEnv) (st : DriverState)
    (v : String) (h : st.requireCache = some v) :
    chromeRequireVersion env st = (.ok v, st) := by
  unfold chromeRequireVersion
  rw [h]

/-- A successful require_version resolution with a nonempty result leaves
the memo field set to that result and touches no other field. -/
theorem chromeRequireVersion_ok_cache (env : ChromeEnv) (st st' : DriverState)
    (v : String) (h : chromeRequireVersion env st = (.ok v, st'))
    (hv : (v == "") = false) :
    st'.requireCache = some v ∧ st'.currentCache = st.currentCache
    ∧ st'.filePresent = st.filePresent := by
  unfold chromeRequireVersion at h
  split at h
  · rename_i w hw
    injection h with h1 h2
    injection h1 with h1v
    subst h1v
    subst h2
    exact ⟨hw, rfl, rfl⟩
  · split at h
    · simp at h
    · split at h
      · simp at h
      · split at h
        · simp at h
        · rename_i version hver
          split at h
          · rename_i hcond
            injection h with h1 h2
            injection h1 with h1v
            subst h1v
            rw [hv] at hcond
            cases hcond
          · injection h with h1 h2
            injection h1 with h1v
            subst h1v
            subst h2
            exact ⟨rfl, rfl, rfl⟩

/-- current_version only ever writes the current-version memo field. -/
theorem chromeCurrentVersion_preserve (env : ChromeEnv) (st : DriverState)
    (r : Except Err String) (st' : DriverState)
    (h : chromeCurrentVersion env st = (r, st')) :
    st'.requireCache = st.requireCache ∧ st'.filePresent = st.filePresent := by
  unfold chromeCurrentVersion at h
  split at h
  · injection h with h1 h2
    subst h2
    exact ⟨rfl, rfl⟩
  · split at h
    · injection h with h1 h2
      subst h2
      exact ⟨rfl, rfl⟩
    · split at h
      · injection h with h1 h2
        subst h2
        exact ⟨rfl, rfl⟩
      · split at h
        · injection h with h1 h2
          subst h2
          exact ⟨rfl, rfl⟩
        · injection h with h1 h2
          subst h2
          exact ⟨rfl, rfl⟩

/-- has_require_version on a memoized instance keeps the memo and the file
state. -/
theorem chromeHasRequireVersionM_preserve (env : ChromeEnv)
    (st : DriverState) (r : Except Err Bool) (st' : DriverState) (v : String)
    (hsc : st.requireCache = some v)
    (h : chromeHasRequireVersionM env st = (r, st')) :
    st'.requireCache = some v ∧ st'.filePresent = st.filePresent := by
  unfold chromeHasRequireVersionM at h
  split at h
  · rename_i e st1 heq
    rw [chromeRequireVersion_cached env st v hsc] at heq
    simp at heq
  · rename_i req st1 heq
    rw [chromeRequireVersion_cached env st v hsc] at heq
    injection heq with h1 h2
    subst h2
    split at h
    · rename_i e st2 heq2
      injection h with hr hst
      subst hst
      have hp := chromeCurrentVersion_preserve env st _ _ heq2
      exact ⟨hp.1.trans hsc, hp.2⟩
    · rename_i cur st2 heq2
      injection h with hr hst
      subst hst
      have hp := chromeCurrentVersion_preserve env st _ _ heq2
      exact ⟨hp.1.trans hsc, hp.2⟩

/-- get_download_url does not change the instance state when the
require-version memo is already set. -/
theorem chromeGetDownloadUrlEff_state (env : ChromeEnv) (st : DriverState)
    (v : String) (hsc : st.requireCache = some v) :
    (chromeGetDownloadUrlEff env st).2.1 = st := by
  unfold chromeGetDownloadUrlEff
  split
  · rfl
  · rw [chromeRequireVersion_cached env st v hsc]

/-- The fetch-and-extract branch never clears the require-version memo. -/
theorem chromeFetch_preserve (env : ChromeEnv) (st : DriverState)
    (r : Except Err String) (st' : DriverState) (n : Bool) (v : String)
    (hsc : st.requireCache = some v)
    (h : chromeFetch env st = (r, st', n)) :
    st'.requireCache = some v := by
  unfold chromeFetch at h
  split at h
  · rename_i e st1 n1 heq
    have hst1 : st1 = st := by
      have hs := chromeGetDownloadUrlEff_state env st v hsc
      rw [heq] at hs
      exact hs
    injection h with h1 h2
    injection h2 with h21 h22
    subst h21
    rw [hst1]
    exact hsc
  · rename_i u st1 n1 heq
    have hst1 : st1 = st := by
      have hs := chromeGetDownloadUrlEff_state env st v hsc
      rw [heq] at hs
      exact hs
    split at h
    · injection h with h1 h2
      injection h2 with h21 h22
      subst h21
      rw [hst1]
      exact hsc
    · split at h
      · injection h with h1 h2
        injection h2 with h21 h22
        subst h21
        rw [hst1]
        exact hsc
      · injection h with h1 h2
        injection h2 with h21 h22
        subst h21
        rw [hst1]
        exact hsc

/-- A successful download leaves a nonempty require-version memoized. -/
theorem chromeDownload_ok_cache (env : ChromeEnv) (st : DriverState)
    (p : String) (st1 : DriverState) (n : Bool)
    (h : chromeDownload env st = (.ok p, st1, n)) :
    ∃ v, (v == "") = false ∧ st1.requireCache = some v := by
  unfold chromeDownload at h
  split at h
  · simp at h
  · rename_i req stA heqR
    split at h
    · simp at h
    · rename_i hreq
      have hreqf : (req == "") = false := boolNotTrue hreq
      have hcache := chromeRequireVersion_ok_cache env st stA req heqR hreqf
      split at h
      · exact ⟨req, hreqf, chromeFetch_preserve env stA _ _ _ req hcache.1 h⟩
      · split at h
        · simp at h
        · rename_i b st2 heqH
          have h2 := chromeHasRequireVersionM_preserve env stA _ _ req
            hcache.1 heqH
          split at h
          · injection h with h1 hrest
            injection hrest with hst hn
            subst hst
            exact ⟨req, hreqf, h2.1⟩
          · exact ⟨req, hreqf, chromeFetch_preserve env st2 _ _ _ req h2.1 h⟩

/-- A memoized Firefox require_version is returned unchanged, with no
network activity. -/
theorem ffRequireVersion_cached (env : FirefoxEnv) (st : DriverState)
    (v : String) (h : st.requireCache = some v) :
    ffRequireVersion env st = (.ok v, st, false) := by
  unfold ffRequireVersion
  rw [h]

/-- A successful Firefox require_version resolution leaves the memo set
(the tag is cached unconditionally) and touches no other field. -/
theorem ffRequireVersion_ok_cache (env : FirefoxEnv) (st st' : DriverState)
    (v : String) (n : Bool)
    (h : ffRequireVersion env st = (.ok v, st', n)) :
    st'.requireCache = some v ∧ st'.currentCache = st.currentCache
    ∧ st'.filePresent = st.filePresent := by
  unfold ffRequireVersion at h
  split at h
  · rename_i w hw
    injection h with h1 h2
    injection h2 with h21 h22
    injection h1 with h1v
    subst h1v
    subst h21
    exact ⟨hw, rfl, rfl⟩
  · split at h
    · simp at h
    · injection h with h1 h2
      injection h2 with h21 h22
      injection h1 with h1v
      subst h1v
      subst h21
      exact ⟨rfl, rfl, rfl⟩

/-- Firefox current_version only ever writes the current-version memo. -/
theorem ffCurrentVersion_preserve (env : FirefoxEnv) (st : DriverState)
    (r : Except Err String) (st' : DriverState)
    (h : ffCurrentVersion env st = (r, st')) :
    st'.requireCache = st.requireCache ∧ st'.filePresent = st.filePresent := by
  unfold ffCurrentVersion at h
  split at h
  · injection h with h1 h2
    subst h2
    exact ⟨rfl, rfl⟩
  · split at h
    · injection h with h1 h2
      subst h2
      exact ⟨rfl, rfl⟩
    · split at h
      · injection h with h1 h2
        subst h2
        exact ⟨rfl, rfl⟩
      · split at h
        · injection h with h1 h2
          subst h2
          exact ⟨rfl, rfl⟩
        · injection h with h1 h2
          subst h2
          exact ⟨rfl, rfl⟩

/-- Firefox has_require_version on a memoized instance keeps the memo and
the file state and performs no network activity. -/
theorem ffHasRequireVersionM_cachedRun (env : FirefoxEnv) (st : DriverState)
    (r : Except Err Bool) (st' : DriverState) (n : Bool) (v : String)
    (hsc : st.requireCache = some v)
    (h : ffHasRequireVersionM env st = (r, st', n)) :
    st'.requireCache = some v ∧ st'.filePresent = st.filePresent
    ∧ n = false := by
  unfold ffHasRequireVersionM at h
  split at h
  · rename_i e st1 heq
    injection h with h1 h2
    injection h2 with h21 h22
    subst h21
    subst h22
    have hp := ffCurrentVersion_preserve env st _ _ heq
    exact ⟨hp.1.trans hsc, hp.2, rfl⟩
  · rename_i cur st1 heq
    have hp := ffCurrentVersion_preserve env st _ _ heq
    have hsc1 : st1.requireCache = some v := hp.1.trans hsc
    split at h
    · rename_i e st2 n2 heq2
      rw [ffRequireVersion_cached env st1 v hsc1] at heq2
      simp at heq2
    · rename_i req st2 n2 heq2
      rw [ffRequireVersion_cached env st1 v hsc1] at heq2
      injection heq2 with hq1 hq2
      injection hq2 with hq21 hq22
      injection h with h1 h2
      injection h2 with h21 h22
      subst h21
      subst h22
      rw [← hq21]
      exact ⟨hsc1, hp.2, hq22.symm⟩

/-- Firefox get_download_url does not change the instance state when the
require-version memo is already set. -/
theorem ffGetDownloadUrlEff_state (env : FirefoxEnv) (st : DriverState)
    (v : String) (hsc : st.requireCache = some v) :
    (ffGetDownloadUrlEff env st).2.1 = st := by
  unfold ffGetDownloadUrlEff
  split
  · rfl
  · rw [ffRequireVersion_cached env st v hsc]

/-- A successful Firefox get_download_url leaves the require memo set. -/
theorem ffGetDownloadUrlEff_ok_cache (env : FirefoxEnv) (st : DriverState)
    (u : String) (st1 : DriverState) (n1 : Bool)
    (h : ffGetDownloadUrlEff env st = (.ok u, st1, n1)) :
    ∃ v, st1.requireCache = some v := by
  unfold ffGetDownloadUrlEff at h
  split at h
  · simp at h
  · split at h
    · simp at h
    · rename_i req stR nR heqR
      injection h with h1 h2
      injection h2 with h21 h22
      subst h21
      exact ⟨req, (ffRequireVersion_ok_cache env st stR req nR heqR).1⟩

/-- A successful Firefox fetch branch leaves the require memo set. -/
theorem ffFetchAfter_ok_cache (env : FirefoxEnv) (st : DriverState)
    (nPrev : Bool) (p : String) (st1 : DriverState) (n : Bool)
    (h : ffFetchAfter env st nPrev = (.ok p, st1, n)) :
    ∃ v, st1.requireCache = some v := by
  unfold ffFetchAfter at h
  split at h
  · simp at h
  · rename_i u stA nA heq
    obtain ⟨v, hv⟩ := ffGetDownloadUrlEff_ok_cache env st u stA nA heq
    split at h
    · simp at h
    · split at h
      · simp at h
      · injection h with h1 h2
        injection h2 with h21 h22
        subst h21
        exact ⟨v, hv⟩

/-- The Firefox fetch branch never clears the require memo. -/
theorem ffFetchAfter_preserve (env : FirefoxEnv) (st : DriverState)
    (nPrev : Bool) (r : Except Err String) (st' : DriverState) (n : Bool)
    (v : String) (hsc : st.requireCache = some v)
    (h : ffFetchAfter env st nPrev = (r, st', n)) :
    st'.requireCache = some v := by
  unfold ffFetchAfter at h
  split at h
  · rename_i e stA nA heq
    have hstA : stA = st := by
      have hs := ffGetDownloadUrlEff_state env st v hsc
      rw [heq] at hs
      exact hs
    injection h with h1 h2
    injection h2 with h21 h22
    subst h21
    rw [hstA]
    exact hsc
  · rename_i u stA nA heq
    have hstA : stA = st := by
      have hs := ffGetDownloadUrlEff_state env st v hsc
      rw [heq] at hs
      exact hs
    split at h
    · injection h with h1 h2
      injection h2 with h21 h22
      subst h21
      rw [hstA]
      exact hsc
    · split at h
      · injection h with h1 h2
        injection h2 with h21 h22
        subst h21
        rw [hstA]
        exact hsc
      · injection h with h1 h2
        injection h2 with h21 h22
        subst h21
        show stA.requireCache = some v
        rw [hstA]
        exact hsc

/-- A Firefox has_require_version run that returns leaves the require memo
set. -/
theorem ffHasRequireVersionM_ok_cache (env : FirefoxEnv) (st : DriverState)
    (b : Bool) (st' : DriverState) (n : Bool)
    (h : ffHasRequireVersionM env st = (.ok b, st', n)) :
    ∃ v, st'.requireCache = some v := by
  unfold ffHasRequireVersionM at h
  split at h
  · simp at h
  · rename_i cur st1 heq
    split at h
    · simp at h
    · rename_i req st2 n2 heq2
      injection h with h1 h2
      injection h2 with h21 h22
      subst h21
      exact ⟨req, (ffRequireVersion_ok_cache env st1 st2 req n2 heq2).1⟩

/-- A successful Firefox download leaves the require memo set. -/
theorem ffDownload_ok_cache (env : FirefoxEnv) (st : DriverState)
    (p : String) (st1 : DriverState) (n : Bool)
    (h : ffDownload env st = (.ok p, st1, n)) :
    ∃ v, st1.requireCache = some v := by
  unfold ffDownload at h
  split at h
  · exact ffFetchAfter_ok_cache env st false p st1 n h
  · split at h
    · simp at h
    · rename_i b st2 n2 heqH
      obtain ⟨v, hv⟩ := ffHasRequireVersionM_ok_cache env st b st2 n2 heqH
      split at h
      · injection h with h1 h2
        injection h2 with h21 h22
        subst h21
        exact ⟨v, hv⟩
      · exact ⟨v, ffFetchAfter_preserve env st2 n2 _ st1 n v hv h⟩

/-- C5: download() is idempotent with respect to network activity.  For
Chrome and Firefox alike, if a first download() call succeeded, the binary
file is present afterwards and has_require_version() holds on the resulting
instance state, then a second download() call on that state performs no
network fetch: the memoized version fields are reused and the download
branch is not entered. -/
theorem download_idempotent_noRefetch :
    (∀ (env : ChromeEnv) (st : DriverState) (p : String)
      (st1 : DriverState) (n1 : Bool) (st2 : DriverState),
      chromeDownload env st = (.ok p, st1, n1) →
      st1.filePresent = true →
      chromeHasRequireVersionM env st1 = (.ok true, st2) →
      (chromeDownload env st1).2.2 = false)
    ∧ (∀ (env : FirefoxEnv) (st : DriverState) (p : String)
      (st1 : DriverState) (n1 : Bool) (st2 : DriverState) (n2 : Bool),
      ffDownload env st = (.ok p, st1, n1) →
      st1.filePresent = true →
      ffHasRequireVersionM env st1 = (.ok true, st2, n2) →
      (ffDownload env st1).2.2 = false) := by
  constructor
  · intro env st p st1 n1 st2 h1 h2 h3
    obtain ⟨v, hv, hcache⟩ := chromeDownload_ok_cache env st p st1 n1 h1
    have hreq := chromeRequireVersion_cached env st1 v hcache
    simp [chromeDownload, hreq, hv, h2, h3]
  · intro env st p st1 n1 st2 n2 h1 h2 h3
    obtain ⟨v, hcache⟩ := ffDownload_ok_cache env st p st1 n1 h1
    have hn2 := (ffHasRequireVersionM_cachedRun env st1 _ _ _ v hcache h3).2.2
    simp [ffDownload, h2, h3, hn2]

/-- Instantiation of the C5 theorem: after a concrete first download on 64-bit
Linux, the second download performs no network fetch for either family. -/
theorem download_idempotent_noRefetch_witness :
    (chromeDownload chromeEnvW ⟨some "114.0.5735.90", none, true, true⟩).2.2
      = false
    ∧ (ffDownload ffEnvW ⟨some "v0.33.0", none, true, true⟩).2.2 = false :=
  ⟨download_idempotent_noRefetch.1 chromeEnvW freshState "/d/"
      ⟨some "114.0.5735.90", none, true, true⟩ true
      ⟨some "114.0.5735.90", some "114.0.5735.90", true, true⟩ rfl rfl rfl,
   download_idempotent_noRefetch.2 ffEnvW freshState "/d/"
      ⟨some "v0.33.0", none, true, true⟩ true
      ⟨some "v0.33.0", some "v0.33.0", true, true⟩ false rfl rfl rfl⟩

/-- C7: when the installed browser cannot be detected (the version
subprocess cannot be spawned), ChromeInstaller.require_version resolution
fails with an error surfaced to the caller instead of returning a value;
and whenever require_version evaluates to the empty string, download()
raises its detection error immediately, with no network activity and in
particular without reaching URL resolution. -/
theorem chromeDetectionFailure_surfaces :
    (∀ (env : ChromeEnv) (st : DriverState),
      st.requireCache = none → env.browserFound = false →
      (chromeRequireVersion env st).1.isOk = false)
    ∧ (∀ (env : ChromeEnv) (st st1 : DriverState),
      chromeRequireVersion env st = (.ok "", st1) →
      chromeDownload env st = (.error .browserCheck, st1, false)) := by
  constructor
  · intro env st h1 h2
    simp only [chromeRequireVersion, h1]
    split
    · rfl
    · simp only [h2]
      rfl
  · intro env st st1 h
    simp [chromeDownload, h]

/-- Instantiation of the C7 theorem: a Linux environment without a
spawnable browser, and an instance whose memoized require_version is the
empty string. -/
theorem chromeDetectionFailure_surfaces_witness :
    (chromeRequireVersion chromeEnvMissing freshState).1.isOk = false
    ∧ chromeDownload chromeEnvW ⟨some "", none, false, false⟩ =
      (.error .browserCheck, ⟨some "", none, false, false⟩, false) :=
  ⟨chromeDetectionFailure_surfaces.1 chromeEnvMissing freshState rfl rfl,
   chromeDetectionFailure_surfaces.2 chromeEnvW ⟨some "", none, false, false⟩
     ⟨some "", none, false, false⟩ rfl⟩
